import Mathlib

/-!
Verification of the spatial coverage & accessibility engine of the
Food_Desert_Mapper repository.

The Python source is shallowly embedded below:
pure numeric functions (`calculate_distance`, the nearest/count scans,
the accessibility classification, coverage-percentage post-processing)
become Lean functions over `ℝ` and lists; the PostGIS-backed state
(`grocery_stores`, `coverage_areas` tables) becomes explicit list-passing
with the relevant SQL statement semantics spelled out; fallible calls
(`execute_query`) become `Except`-valued parameters.
-/

namespace FoodDesert

open Real

/-! ### Python rounding

`round(x, n)` in Python rounds half to even (banker's rounding).
`roundHalfEven` models the integer-valued core; `round2`/`round1`
model `round(x, 2)` and `round(x, 1)`. -/

/-- Python's `round` to an integer: nearest integer, ties to even. -/
noncomputable def roundHalfEven (x : ℝ) : ℤ :=
  open Classical in
  if Int.fract x = 1 / 2 then 2 * round (x / 2) else round x

/-- Python's `round(x, 2)`. -/
noncomputable def round2 (x : ℝ) : ℝ := (roundHalfEven (x * 100) : ℝ) / 100

/-- Python's `round(x, 1)`. -/
noncomputable def round1 (x : ℝ) : ℝ := (roundHalfEven (x * 10) : ℝ) / 10

theorem roundHalfEven_of_fract_ne (x : ℝ) (h : Int.fract x ≠ 1 / 2) :
    roundHalfEven x = round x := by
  unfold roundHalfEven
  rw [if_neg h]

theorem roundHalfEven_intCast (n : ℤ) : roundHalfEven (n : ℝ) = n := by
  have h : Int.fract ((n : ℝ)) = 0 := Int.fract_intCast n
  rw [roundHalfEven_of_fract_ne _ (by rw [h]; norm_num)]
  exact round_intCast n

theorem abs_roundHalfEven_sub (x : ℝ) : |(roundHalfEven x : ℝ) - x| ≤ 1 / 2 := by
  unfold roundHalfEven
  split
  · next h =>
    have hx : x = (⌊x⌋ : ℝ) + 1 / 2 := by
      have := Int.fract_add_floor x
      rw [h] at this
      linarith
    rcases Int.even_or_odd ⌊x⌋ with ⟨m, hm⟩ | ⟨m, hm⟩
    · have h2 : x / 2 = (m : ℝ) + 1 / 4 := by
        rw [hx, hm]; push_cast; ring
      have : round (x / 2) = m := by
        rw [h2, round_eq]
        have : (m : ℝ) + 1 / 4 + 1 / 2 = (m : ℝ) + 3 / 4 := by ring
        rw [this, add_comm, Int.floor_add_int]
        norm_num [Int.floor_eq_iff]
      rw [this, hx, hm]
      push_cast
      rw [abs_le]
      constructor <;> linarith
    · have h2 : x / 2 = (m : ℝ) + 3 / 4 := by
        rw [hx, hm]; push_cast; ring
      have : round (x / 2) = m + 1 := by
        rw [h2, round_eq]
        have : (m : ℝ) + 3 / 4 + 1 / 2 = (m : ℝ) + 5 / 4 := by ring
        rw [this, add_comm, Int.floor_add_int]
        norm_num [Int.floor_eq_iff]
        omega
      rw [this, hx, hm]
      push_cast
      rw [abs_le]
      constructor <;> linarith
  · next h =>
    have := abs_sub_round x
    rw [abs_sub_comm] at this
    exact this

theorem abs_round2_sub (x : ℝ) : |round2 x - x| ≤ 1 / 200 := by
  unfold round2
  have h := abs_roundHalfEven_sub (x * 100)
  rw [abs_le] at h ⊢
  constructor <;> [nlinarith [h.1, h.2]; nlinarith [h.1, h.2]]

theorem round2_zero : round2 0 = 0 := by
  have h : (0 : ℝ) * 100 = ((0 : ℤ) : ℝ) := by norm_num
  unfold round2
  rw [h, roundHalfEven_intCast]
  norm_num

/-! ### Geometry kernel: `src/utils/geo_utils.py`

`calculate_distance` (lines 17-54) computes the haversine distance on a
sphere of radius `R = 6371.0` km and returns `round(distance, 2)`.
Python's `math.atan2` is modelled by `atan2` below with the standard
quadrant conventions. Points are `(latitude, longitude)` pairs in
degrees, modelled as `ℝ × ℝ`. -/

/-- `math.radians`: degrees to radians. -/
noncomputable def radians (d : ℝ) : ℝ := d * (π / 180)

/-- `math.atan2 y x` with the standard branch conventions. -/
noncomputable def atan2 (y x : ℝ) : ℝ :=
  open Classical in
  if 0 < x then arctan (y / x)
  else if x < 0 then
    (if 0 ≤ y then arctan (y / x) + π else arctan (y / x) - π)
  else if 0 < y then π / 2
  else if y < 0 then -(π / 2)
  else 0

/-- The haversine `a` term of `calculate_distance`:
`sin(dlat/2)**2 + cos(lat1_rad) * cos(lat2_rad) * sin(dlon/2)**2`. -/
noncomputable def haversine_a (point1 point2 : ℝ × ℝ) : ℝ :=
  let lat1_rad := radians point1.1
  let lon1_rad := radians point1.2
  let lat2_rad := radians point2.1
  let lon2_rad := radians point2.2
  let dlat := lat2_rad - lat1_rad
  let dlon := lon2_rad - lon1_rad
  sin (dlat / 2) ^ 2 + cos lat1_rad * cos lat2_rad * sin (dlon / 2) ^ 2

/-- The value of the local variable `distance` in `calculate_distance`
just before the final `round(distance, 2)`: the unrounded haversine
distance `R * c` with `R = 6371.0` and
`c = 2 * atan2(sqrt(a), sqrt(1 - a))`. -/
noncomputable def raw_haversine_distance (point1 point2 : ℝ × ℝ) : ℝ :=
  let a := haversine_a point1 point2
  let c := 2 * atan2 (Real.sqrt a) (Real.sqrt (1 - a))
  6371.0 * c

/-- `calculate_distance(point1, point2)` from `src/utils/geo_utils.py`:
returns `round(distance, 2)` of the haversine distance. -/
noncomputable def calculate_distance (point1 point2 : ℝ × ℝ) : ℝ :=
  round2 (raw_haversine_distance point1 point2)

/-- Written from the spec, for comparison with `calculate_distance`:
"great-circle distance using the haversine formula on a sphere of
radius 6371.0 km", in the textbook arcsine form
`d = 2 R arcsin(sqrt a)`. -/
noncomputable def spec_haversine_distance (point1 point2 : ℝ × ℝ) : ℝ :=
  2 * 6371.0 * arcsin (Real.sqrt (haversine_a point1 point2))

/-! Basic facts about `atan2` and the haversine terms. -/

theorem atan2_pos_left (y x : ℝ) (hx : 0 < x) : atan2 y x = arctan (y / x) := by
  unfold atan2
  rw [if_pos hx]

theorem atan2_one_zero : atan2 1 0 = π / 2 := by
  unfold atan2
  norm_num

theorem atan2_zero_one : atan2 0 1 = 0 := by
  rw [atan2_pos_left 0 1 one_pos]
  norm_num [arctan_zero]

/-- Swapping the two points leaves the haversine `a` term unchanged. -/
theorem haversine_a_comm (p q : ℝ × ℝ) : haversine_a p q = haversine_a q p := by
  unfold haversine_a radians
  have h1 : (q.1 * (π / 180) - p.1 * (π / 180)) / 2
      = -((p.1 * (π / 180) - q.1 * (π / 180)) / 2) := by ring
  have h2 : (q.2 * (π / 180) - p.2 * (π / 180)) / 2
      = -((p.2 * (π / 180) - q.2 * (π / 180)) / 2) := by ring
  simp only
  rw [h1, h2, Real.sin_neg, Real.sin_neg]
  ring

theorem haversine_a_self (p : ℝ × ℝ) : haversine_a p p = 0 := by
  unfold haversine_a
  simp

theorem raw_haversine_distance_comm (p q : ℝ × ℝ) :
    raw_haversine_distance p q = raw_haversine_distance q p := by
  unfold raw_haversine_distance
  rw [haversine_a_comm]

theorem raw_haversine_distance_self (p : ℝ × ℝ) :
    raw_haversine_distance p p = 0 := by
  unfold raw_haversine_distance
  rw [haversine_a_self]
  simp [atan2_zero_one]

theorem calculate_distance_comm (p q : ℝ × ℝ) :
    calculate_distance p q = calculate_distance q p := by
  unfold calculate_distance
  rw [raw_haversine_distance_comm]

theorem calculate_distance_self (p : ℝ × ℝ) : calculate_distance p p = 0 := by
  unfold calculate_distance
  rw [raw_haversine_distance_self, round2_zero]

/-- For `0 ≤ a ≤ 1` the quadrant-correct arctangent applied to
`(sqrt a, sqrt (1 - a))` is the arcsine of `sqrt a`. -/
theorem atan2_sqrt_eq_arcsin {a : ℝ} (h0 : 0 ≤ a) (h1 : a ≤ 1) :
    atan2 (Real.sqrt a) (Real.sqrt (1 - a)) = arcsin (Real.sqrt a) := by
  rcases lt_or_eq_of_le h1 with hlt | heq
  · have hpos : 0 < Real.sqrt (1 - a) := Real.sqrt_pos.mpr (by linarith)
    rw [atan2_pos_left _ _ hpos, arctan_eq_arcsin]
    congr 1
    have hsq : Real.sqrt a / Real.sqrt (1 - a)
        = Real.sqrt (a / (1 - a)) := by
      rw [Real.sqrt_div h0]
    have h1a : (0 : ℝ) < 1 - a := by linarith
    rw [hsq]
    have harg : 1 + Real.sqrt (a / (1 - a)) ^ 2 = 1 / (1 - a) := by
      rw [Real.sq_sqrt (by positivity)]
      field_simp
    rw [harg, Real.sqrt_div' 1 (le_of_lt h1a), Real.sqrt_one, div_eq_mul_inv,
      one_div, inv_inv, ← Real.sqrt_mul (by positivity)]
    congr 1
    field_simp
  · subst heq
    simp only [sub_self, Real.sqrt_zero, Real.sqrt_one]
    rw [atan2_one_zero, Real.arcsin_one]

/-- `calculate_distance` is `round2` of the spec's haversine formula,
provided the latitudes are geographically valid. -/
theorem raw_eq_spec_haversine (p q : ℝ × ℝ)
    (hp : -90 ≤ p.1 ∧ p.1 ≤ 90) (hq : -90 ≤ q.1 ∧ q.1 ≤ 90) :
    raw_haversine_distance p q = spec_haversine_distance p q := by
  have hπ : (0 : ℝ) < π := pi_pos
  have hφp : -(π / 2) ≤ radians p.1 ∧ radians p.1 ≤ π / 2 := by
    unfold radians
    constructor <;> nlinarith [hp.1, hp.2]
  have hφq : -(π / 2) ≤ radians q.1 ∧ radians q.1 ≤ π / 2 := by
    unfold radians
    constructor <;> nlinarith [hq.1, hq.2]
  have hc1 : 0 ≤ cos (radians p.1) :=
    Real.cos_nonneg_of_mem_Icc ⟨hφp.1, hφp.2⟩
  have hc2 : 0 ≤ cos (radians q.1) :=
    Real.cos_nonneg_of_mem_Icc ⟨hφq.1, hφq.2⟩
  have h0 : 0 ≤ haversine_a p q := by
    unfold haversine_a
    positivity
  have h1 : haversine_a p q ≤ 1 := by
    unfold haversine_a
    simp only
    set φ1 := radians p.1
    set φ2 := radians q.1
    set lam := (radians q.2 - radians p.2) / 2
    have hhalf : sin ((φ2 - φ1) / 2) ^ 2 = 1 / 2 - cos (φ2 - φ1) / 2 := by
      have := Real.sin_sq_eq_half_sub ((φ2 - φ1) / 2)
      rw [show 2 * ((φ2 - φ1) / 2) = φ2 - φ1 by ring] at this
      exact this
    have hsub : cos (φ2 - φ1) = cos φ2 * cos φ1 + sin φ2 * sin φ1 :=
      Real.cos_sub φ2 φ1
    have hadd : cos (φ2 + φ1) = cos φ2 * cos φ1 - sin φ2 * sin φ1 :=
      Real.cos_add φ2 φ1
    have hle : cos (φ2 + φ1) ≤ 1 := Real.cos_le_one _
    have hs : sin lam ^ 2 ≤ 1 := Real.sin_sq_le_one lam
    have hprod : 0 ≤ cos φ1 * cos φ2 := mul_nonneg hc1 hc2
    nlinarith [hprod, hs, hle]
  show 6371.0 * (2 * atan2 (Real.sqrt (haversine_a p q))
      (Real.sqrt (1 - haversine_a p q)))
    = 2 * 6371.0 * arcsin (Real.sqrt (haversine_a p q))
  rw [atan2_sqrt_eq_arcsin h0 h1]
  ring

/-! Interval-arithmetic helpers used to certify the concrete
Philadelphia–New York distance. -/

theorem sin_bracket_small {x lo hi : ℝ} (h0 : 0 < lo) (hlo : lo ≤ x)
    (hhi : x ≤ hi) (h1 : hi ≤ 1) :
    lo - hi ^ 3 / 4 ≤ sin x ∧ sin x ≤ hi := by
  have hx0 : 0 < x := lt_of_lt_of_le h0 hlo
  have hx1 : x ≤ 1 := le_trans hhi h1
  have hlow := Real.sin_gt_sub_cube hx0 hx1
  have hup := Real.sin_lt hx0
  have hcube : x ^ 3 ≤ hi ^ 3 := pow_le_pow_left₀ (le_of_lt hx0) hhi 3
  exact ⟨by nlinarith, by linarith⟩

theorem sin_bracket_mid {y lo hi : ℝ} (h0 : 0 ≤ lo) (hlo : lo ≤ y)
    (hhi : y ≤ hi) (h1 : hi ≤ 1) :
    lo - hi ^ 3 / 6 - hi ^ 4 * (5 / 96) ≤ sin y ∧
    sin y ≤ hi - lo ^ 3 / 6 + hi ^ 4 * (5 / 96) := by
  have hy0 : 0 ≤ y := le_trans h0 hlo
  have habs : |y| ≤ 1 := by
    rw [abs_of_nonneg hy0]
    exact le_trans hhi h1
  have hb := Real.sin_bound habs
  rw [abs_of_nonneg hy0] at hb
  rw [abs_le] at hb
  have h3lo : lo ^ 3 ≤ y ^ 3 := pow_le_pow_left₀ h0 hlo 3
  have h3hi : y ^ 3 ≤ hi ^ 3 := pow_le_pow_left₀ hy0 hhi 3
  have h4 : y ^ 4 ≤ hi ^ 4 := pow_le_pow_left₀ hy0 hhi 4
  exact ⟨by nlinarith [hb.1, hb.2], by nlinarith [hb.1, hb.2]⟩

theorem cos_double_sin_sq (y : ℝ) : cos (2 * y) = 1 - 2 * sin y ^ 2 := by
  rw [Real.cos_two_mul']
  have := Real.sin_sq_add_cos_sq y
  linarith

theorem lt_arcsin_of_pos {t : ℝ} (h0 : 0 < t) (h1 : t ≤ 1) : t < arcsin t := by
  have harc : 0 < arcsin t := Real.arcsin_pos.mpr h0
  have hs : sin (arcsin t) = t := Real.sin_arcsin (by linarith) h1
  have hlt := Real.sin_lt harc
  rw [hs] at hlt
  exact hlt

set_option maxHeartbeats 2000000 in
/-- Certified bracket for the haversine `a` term of the
Philadelphia (39.9526, -75.1652) / New York (40.7128, -74.0060) pair. -/
theorem haversine_a_philly_nyc_bracket :
    0.0001030 ≤ haversine_a (39.9526, -75.1652) (40.7128, -74.0060) ∧
    haversine_a (39.9526, -75.1652) (40.7128, -74.0060) ≤ 0.0001040 := by
  have hπl : (3.14159265358979323846 : ℝ) < π := Real.pi_gt_d20
  have hπh : π < 3.14159265358979323847 := Real.pi_lt_d20
  have ha_eq : haversine_a (39.9526, -75.1652) (40.7128, -74.0060)
      = sin (0.3801 * (π / 180)) ^ 2
        + cos (2 * (19.9763 * (π / 180))) * cos (2 * (20.3564 * (π / 180)))
          * sin (0.5796 * (π / 180)) ^ 2 := by
    show sin ((radians 40.7128 - radians 39.9526) / 2) ^ 2
        + cos (radians 39.9526) * cos (radians 40.7128)
          * sin ((radians (-74.0060) - radians (-75.1652)) / 2) ^ 2 = _
    rw [show (radians 40.7128 - radians 39.9526) / 2 = 0.3801 * (π / 180) by
          unfold radians; ring,
        show radians 39.9526 = 2 * (19.9763 * (π / 180)) by unfold radians; ring,
        show radians 40.7128 = 2 * (20.3564 * (π / 180)) by unfold radians; ring,
        show (radians (-74.0060) - radians (-75.1652)) / 2 = 0.5796 * (π / 180) by
          unfold radians; ring]
  rw [ha_eq]
  have hx1 : (0.0066339964 : ℝ) ≤ 0.3801 * (π / 180) ∧
      (0.3801 : ℝ) * (π / 180) ≤ 0.0066339965 := by
    constructor <;> nlinarith
  have hx2 : (0.0101159283 : ℝ) ≤ 0.5796 * (π / 180) ∧
      (0.5796 : ℝ) * (π / 180) ≤ 0.0101159284 := by
    constructor <;> nlinarith
  have hy1 : (0.3486522073 : ℝ) ≤ 19.9763 * (π / 180) ∧
      (19.9763 : ℝ) * (π / 180) ≤ 0.3486522074 := by
    constructor <;> nlinarith
  have hy2 : (0.3552862038 : ℝ) ≤ 20.3564 * (π / 180) ∧
      (20.3564 : ℝ) * (π / 180) ≤ 0.3552862039 := by
    constructor <;> nlinarith
  have hs1 := sin_bracket_small (by norm_num) hx1.1 hx1.2 (by norm_num)
  have hs2 := sin_bracket_small (by norm_num) hx2.1 hx2.2 (by norm_num)
  have hu1 := sin_bracket_mid (by norm_num) hy1.1 hy1.2 (by norm_num)
  have hu2 := sin_bracket_mid (by norm_num) hy2.1 hy2.2 (by norm_num)
  set s1 := sin (0.3801 * (π / 180)) with hs1def
  set s2 := sin (0.5796 * (π / 180)) with hs2def
  set u1 := sin (19.9763 * (π / 180)) with hu1def
  set u2 := sin (20.3564 * (π / 180)) with hu2def
  have hs1' : (0.0066339233 : ℝ) ≤ s1 ∧ s1 ≤ 0.0066339965 := by
    constructor <;> nlinarith [hs1.1, hs1.2]
  have hs2' : (0.0101156694 : ℝ) ≤ s2 ∧ s2 ≤ 0.0101159284 := by
    constructor <;> nlinarith [hs2.1, hs2.2]
  have hu1' : (0.3408190 : ℝ) ≤ u1 ∧ u1 ≤ 0.3423583 := by
    constructor <;> nlinarith [hu1.1, hu1.2]
  have hu2' : (0.3469818 : ℝ) ≤ u2 ∧ u2 ≤ 0.3486416 := by
    constructor <;> nlinarith [hu2.1, hu2.2]
  rw [cos_double_sin_sq, cos_double_sin_sq, ← hu1def, ← hu2def]
  have ht1 : (0.0000440089 : ℝ) ≤ s1 ^ 2 ∧ s1 ^ 2 ≤ 0.0000440100 := by
    constructor <;> nlinarith [hs1'.1, hs1'.2]
  have ht2 : (0.0001023265 : ℝ) ≤ s2 ^ 2 ∧ s2 ^ 2 ≤ 0.0001023321 := by
    constructor <;> nlinarith [hs2'.1, hs2'.2]
  have hc1 : (0.7655815 : ℝ) ≤ 1 - 2 * u1 ^ 2 ∧
      1 - 2 * u1 ^ 2 ≤ 0.7676849 := by
    constructor <;> nlinarith [hu1'.1, hu1'.2]
  have hc2 : (0.7568980 : ℝ) ≤ 1 - 2 * u2 ^ 2 ∧
      1 - 2 * u2 ^ 2 ≤ 0.7592073 := by
    constructor <;> nlinarith [hu2'.1, hu2'.2]
  have hP : (0.5794662 : ℝ) ≤ (1 - 2 * u1 ^ 2) * (1 - 2 * u2 ^ 2) ∧
      (1 - 2 * u1 ^ 2) * (1 - 2 * u2 ^ 2) ≤ 0.5828325 := by
    constructor
    · have := mul_le_mul hc1.1 hc2.1 (by norm_num) (by linarith [hc1.1])
      linarith
    · have := mul_le_mul hc1.2 hc2.2 (by linarith [hc2.1]) (by norm_num)
      linarith
  have hPT : (0.5794662 : ℝ) * 0.0001023265
        ≤ (1 - 2 * u1 ^ 2) * (1 - 2 * u2 ^ 2) * s2 ^ 2 ∧
      (1 - 2 * u1 ^ 2) * (1 - 2 * u2 ^ 2) * s2 ^ 2
        ≤ (0.5828325 : ℝ) * 0.0001023321 := by
    constructor
    · exact mul_le_mul hP.1 ht2.1 (by norm_num) (by linarith [hP.1])
    · exact mul_le_mul hP.2 ht2.2 (by positivity) (by norm_num)
  constructor
  · nlinarith [ht1.1, hPT.1]
  · nlinarith [ht1.2, hPT.2]

set_option maxHeartbeats 2000000 in
/-- The unrounded haversine distance from Philadelphia to New York lies
strictly inside [129.005, 130.995]. -/
theorem raw_philly_nyc_bracket :
    129.005 ≤ raw_haversine_distance (39.9526, -75.1652) (40.7128, -74.0060) ∧
    raw_haversine_distance (39.9526, -75.1652) (40.7128, -74.0060) ≤ 130.995 := by
  obtain ⟨haL, haH⟩ := haversine_a_philly_nyc_bracket
  set a := haversine_a (39.9526, -75.1652) (40.7128, -74.0060) with hadef
  have h0 : 0 ≤ a := by linarith
  have h1 : a ≤ 1 := by linarith
  have hraw : raw_haversine_distance (39.9526, -75.1652) (40.7128, -74.0060)
      = 6371.0 * (2 * arcsin (Real.sqrt a)) := by
    show 6371.0 * (2 * atan2 (Real.sqrt a) (Real.sqrt (1 - a))) = _
    rw [atan2_sqrt_eq_arcsin h0 h1]
  rw [hraw]
  have hsq1 : Real.sqrt a ≤ 1 := by
    rw [show (1 : ℝ) = Real.sqrt 1 by rw [Real.sqrt_one]]
    exact Real.sqrt_le_sqrt h1
  constructor
  · have hL : (129.005 : ℝ) / 12742 ≤ Real.sqrt a := by
      rw [Real.le_sqrt (by norm_num) h0]
      nlinarith
    have harc : Real.sqrt a < arcsin (Real.sqrt a) := by
      refine lt_arcsin_of_pos ?_ hsq1
      have : (0 : ℝ) < 129.005 / 12742 := by norm_num
      linarith
    nlinarith [hL, harc]
  · have hU0 : (0 : ℝ) < 130.995 / 12742 := by norm_num
    have hU1 : (130.995 : ℝ) / 12742 ≤ 1 := by norm_num
    have hsinU := Real.sin_gt_sub_cube hU0 hU1
    have hsqU : Real.sqrt a ≤ 130.995 / 12742 - (130.995 / 12742) ^ 3 / 4 := by
      rw [Real.sqrt_le_iff]
      constructor
      · norm_num
      · nlinarith
    have harcle : arcsin (Real.sqrt a) ≤ 130.995 / 12742 := by
      rw [Real.arcsin_le_iff_le_sin ⟨by nlinarith [Real.sqrt_nonneg a], hsq1⟩
          ⟨by nlinarith [Real.pi_gt_three], by nlinarith [Real.pi_gt_three]⟩]
      linarith
    nlinarith [harcle]

/-! ### Accessibility analyzer: `find_nearest_store`, `count_stores_in_radius`
(`src/utils/geo_utils.py`) and the classification in `src/app.py`.

`stores_gdf` is modelled as the list of store coordinates, `(lat, lon)`
pairs read off `store.geometry.y` / `store.geometry.x` in iteration
order; the positional index plays the role of the dataframe index. -/

/-- The body of Python's `min(distances, key=lambda x: x[1])` over a
nonempty list: scan keeping the current best, replacing it only on a
strictly smaller key, so the first minimiser wins. -/
noncomputable def minStep (best x : ℕ × ℝ) : ℕ × ℝ :=
  open Classical in
  if x.2 < best.2 then x else best

/-- Python's `min(l, key=lambda x: x[1])`, `none` on the empty list. -/
noncomputable def pyMinByDist : List (ℕ × ℝ) → Option (ℕ × ℝ)
  | [] => none
  | h :: t => some (t.foldl minStep h)

/-- `find_nearest_store(point, stores_gdf)` from `src/utils/geo_utils.py`:
returns `none` when the store set is empty, otherwise the
`(store_index, distance_km)` pair minimising `calculate_distance`,
first-encountered minimiser on ties. -/
noncomputable def find_nearest_store (point : ℝ × ℝ) (stores_gdf : List (ℝ × ℝ)) :
    Option (ℕ × ℝ) :=
  pyMinByDist (stores_gdf.enum.map fun s => (s.1, calculate_distance point s.2))

/-- `count_stores_in_radius(point, stores_gdf, radius_km)` from
`src/utils/geo_utils.py`: counts stores with
`calculate_distance point store <= radius_km`. -/
noncomputable def count_stores_in_radius (point : ℝ × ℝ)
    (stores_gdf : List (ℝ × ℝ)) (radius_km : ℝ) : ℕ :=
  open Classical in
  stores_gdf.foldl
    (fun count s => if calculate_distance point s ≤ radius_km then count + 1 else count) 0

/-- The three accessibility buckets rendered by `src/app.py`. -/
inductive Accessibility where
  | desert
  | limited
  | good
deriving DecidableEq

/-- The accessibility classification of `src/app.py` (lines 613-642):
`count == 0` is a food desert, `count < 3` limited access, else good. -/
def classify (count : ℕ) : Accessibility :=
  if count = 0 then .desert
  else if count < 3 then .limited
  else .good

/-- `foldl minStep` returns the first position attaining the minimal
distance among the seed and the scanned list. -/
theorem foldl_minStep_spec (t : List (ℕ × ℝ)) (b : ℕ × ℝ) :
    ∃ k, ∃ hk : k < (b :: t).length,
      t.foldl minStep b = (b :: t).get ⟨k, hk⟩ ∧
      (∀ j (hj : j < (b :: t).length),
        (t.foldl minStep b).2 ≤ ((b :: t).get ⟨j, hj⟩).2) ∧
      (∀ j (hj : j < k),
        (t.foldl minStep b).2 < ((b :: t).get ⟨j, lt_trans hj hk⟩).2) := by
  induction t generalizing b with
  | nil =>
    refine ⟨0, by simp, rfl, ?_, ?_⟩
    · intro j hj
      have hj0 : j = 0 := by simpa using hj
      subst hj0
      exact le_refl _
    · intro j hj
      omega
  | cons x t ih =>
    have hfold : (x :: t).foldl minStep b = t.foldl minStep (minStep b x) := rfl
    by_cases hlt : x.2 < b.2
    · have hstep : minStep b x = x := by
        unfold minStep
        rw [if_pos hlt]
      obtain ⟨k, hk, heq, hmin, hstrict⟩ := ih x
      refine ⟨k + 1, by simpa using hk, ?_, ?_, ?_⟩
      · rw [hfold, hstep]
        exact heq
      · intro j hj
        rw [hfold, hstep]
        match j with
        | 0 =>
          have h0 := hmin 0 (by simp)
          simp only [List.get] at h0 ⊢
          have hb := le_of_lt hlt
          exact le_trans h0 hb
        | j + 1 =>
          have hj' : j < (x :: t).length := by simpa using hj
          exact hmin j hj'
      · intro j hj
        rw [hfold, hstep]
        match j with
        | 0 =>
          have h0 := hmin 0 (by simp)
          simp only [List.get] at h0 ⊢
          exact lt_of_le_of_lt h0 hlt
        | j + 1 =>
          have hj' : j < k := by omega
          exact hstrict j hj'
    · have hstep : minStep b x = b := by
        unfold minStep
        rw [if_neg hlt]
      have hxb : b.2 ≤ x.2 := le_of_not_lt hlt
      obtain ⟨k, hk, heq, hmin, hstrict⟩ := ih b
      match k, hk with
      | 0, hk =>
        refine ⟨0, by simp, ?_, ?_, ?_⟩
        · rw [hfold, hstep]
          exact heq
        · intro j hj
          rw [hfold, hstep]
          have hr : (t.foldl minStep b).2 ≤ b.2 := hmin 0 (by simp)
          match j with
          | 0 => exact hr
          | 1 => exact le_trans hr hxb
          | j + 2 =>
            have hj' : j + 1 < (b :: t).length := by simpa using hj
            exact hmin (j + 1) hj'
        · intro j hj
          omega
      | k + 1, hk =>
        refine ⟨k + 2, by simpa using hk, ?_, ?_, ?_⟩
        · rw [hfold, hstep]
          exact heq
        · intro j hj
          rw [hfold, hstep]
          match j with
          | 0 => exact hmin 0 (by simp)
          | 1 =>
            have hr : (t.foldl minStep b).2 ≤ b.2 := hmin 0 (by simp)
            exact le_trans hr hxb
          | j + 2 =>
            have hj' : j + 1 < (b :: t).length := by simpa using hj
            exact hmin (j + 1) hj'
        · intro j hj
          rw [hfold, hstep]
          have hrb : (t.foldl minStep b).2 < b.2 := hstrict 0 (by omega)
          match j with
          | 0 => exact hrb
          | 1 => exact lt_of_lt_of_le hrb hxb
          | j + 2 =>
            have hj' : j + 1 < k + 1 := by omega
            exact hstrict (j + 1) hj'

open Classical in
theorem count_foldl_go (p : ℝ × ℝ) (r : ℝ) (l : List (ℝ × ℝ)) :
    ∀ n : ℕ,
      l.foldl (fun count s =>
          if calculate_distance p s ≤ r then count + 1 else count) n
        = n + (l.filter fun s => calculate_distance p s ≤ r).length := by
  induction l with
  | nil =>
    intro n
    simp
  | cons s t ih =>
    intro n
    by_cases h : calculate_distance p s ≤ r
    · simp [List.filter_cons, h, ih]
      omega
    · simp [List.filter_cons, h, ih]

open Classical in
/-- `count_stores_in_radius` counts exactly the stores whose
`calculate_distance` to the query point is at most the radius. -/
theorem count_stores_eq_filter (p : ℝ × ℝ) (S : List (ℝ × ℝ)) (r : ℝ) :
    count_stores_in_radius p S r
      = (S.filter fun s => calculate_distance p s ≤ r).length := by
  unfold count_stores_in_radius
  rw [count_foldl_go]
  omega

theorem find_nearest_store_none_iff (p : ℝ × ℝ) (S : List (ℝ × ℝ)) :
    find_nearest_store p S = none ↔ S = [] := by
  cases S with
  | nil =>
    simp [find_nearest_store, pyMinByDist]
  | cons s t =>
    simp [find_nearest_store, pyMinByDist, List.enum_cons]

/-- If `find_nearest_store` returns `some (i, d)` then `i` indexes a
store at distance `d`, no store is strictly closer, and every earlier
store is strictly farther (first-encountered tie-breaking). -/
theorem find_nearest_store_spec (p : ℝ × ℝ) (S : List (ℝ × ℝ)) (i : ℕ) (d : ℝ)
    (h : find_nearest_store p S = some (i, d)) :
    ∃ hi : i < S.length,
      d = calculate_distance p (S.get ⟨i, hi⟩) ∧
      (∀ j (hj : j < S.length), d ≤ calculate_distance p (S.get ⟨j, hj⟩)) ∧
      (∀ j (hj : j < i), d < calculate_distance p (S.get ⟨j, lt_trans hj hi⟩)) := by
  cases S with
  | nil =>
    simp [find_nearest_store, pyMinByDist] at h
  | cons s t =>
    have hgfst : ∀ (j : ℕ)
        (hj : j < ((0, calculate_distance p s) :: (t.enumFrom 1).map
          (fun e => (e.1, calculate_distance p e.2))).length),
        (((0, calculate_distance p s) :: (t.enumFrom 1).map
          (fun e => (e.1, calculate_distance p e.2))).get ⟨j, hj⟩).1 = j := by
      intro j hj
      match j with
      | 0 => rfl
      | j + 1 =>
        show (((t.enumFrom 1).map
          (fun e => (e.1, calculate_distance p e.2))).get ⟨j, _⟩).1 = j + 1
        rw [List.get_eq_getElem]
        simp
        omega
    have hgsnd : ∀ (j : ℕ)
        (hj : j < ((0, calculate_distance p s) :: (t.enumFrom 1).map
          (fun e => (e.1, calculate_distance p e.2))).length)
        (hj' : j < (s :: t).length),
        (((0, calculate_distance p s) :: (t.enumFrom 1).map
          (fun e => (e.1, calculate_distance p e.2))).get ⟨j, hj⟩).2
          = calculate_distance p ((s :: t).get ⟨j, hj'⟩) := by
      intro j hj hj'
      match j with
      | 0 => rfl
      | j + 1 =>
        show (((t.enumFrom 1).map
          (fun e => (e.1, calculate_distance p e.2))).get ⟨j, _⟩).2
            = calculate_distance p (t.get ⟨j, _⟩)
        rw [List.get_eq_getElem, List.get_eq_getElem]
        simp
    have hfold : find_nearest_store p (s :: t)
        = some (((t.enumFrom 1).map
            (fun e => (e.1, calculate_distance p e.2))).foldl minStep
              (0, calculate_distance p s)) := rfl
    obtain ⟨k, hk, heq, hmin, hstrict⟩ :=
      foldl_minStep_spec ((t.enumFrom 1).map
        (fun e => (e.1, calculate_distance p e.2))) (0, calculate_distance p s)
    rw [hfold, heq] at h
    have hkS : k < (s :: t).length := by
      simpa using hk
    have hidk : i = k ∧ d = calculate_distance p ((s :: t).get ⟨k, hkS⟩) := by
      have hinj := Option.some.inj h
      constructor
      · have := congrArg Prod.fst hinj
        rw [hgfst k hk] at this
        exact this.symm
      · have := congrArg Prod.snd hinj
        rw [hgsnd k hk hkS] at this
        exact this.symm
    obtain ⟨hik, hd⟩ := hidk
    subst hik
    refine ⟨hkS, hd, ?_, ?_⟩
    · intro j hj
      have hjL : j < ((0, calculate_distance p s) :: (t.enumFrom 1).map
          (fun e => (e.1, calculate_distance p e.2))).length := by
        simpa using hj
      have hm := hmin j hjL
      rw [heq, hgsnd j hjL hj, hgsnd i hk hkS] at hm
      rw [hd]
      exact hm
    · intro j hj
      have hjS : j < (s :: t).length := lt_trans hj hkS
      have hst := hstrict j hj
      have hjL : j < ((0, calculate_distance p s) :: (t.enumFrom 1).map
          (fun e => (e.1, calculate_distance p e.2))).length := by
        simpa using hjS
      rw [heq] at hst
      rw [hgsnd i hk hkS] at hst
      rw [show (((0, calculate_distance p s) :: (t.enumFrom 1).map
          (fun e => (e.1, calculate_distance p e.2))).get
            ⟨j, lt_trans hj hk⟩).2
          = calculate_distance p ((s :: t).get ⟨j, hjS⟩) from
        hgsnd j (lt_trans hj hk) hjS] at hst
      rw [hd]
      exact hst

/-! ### Coverage tracker: `check_coverage` / `add_coverage`
(`src/scripts/db_setup.py`, lines 251-306).

Two levels of embedding:

* the idealised SQL semantics (`check_coverage_sem`, `add_coverage_sem`):
  the `coverage_areas` table is a list of records, the
  `SELECT EXISTS (... WHERE ST_Contains(bbox, query))` test is the
  PostGIS containment predicate over the stored rectangles, and the
  `INSERT` appends a row;
* the error-path behaviour (`check_coverage_run`, `add_coverage_run`):
  the `try/except` structure around `execute_query`, with the query
  outcome passed in as an `Except`-valued function. -/

/-- A bounding box `(min_lon, min_lat, max_lon, max_lat)`; both
`check_coverage` and `add_coverage` turn it into the WKT rectangle
`POLYGON((min_lon min_lat, max_lon min_lat, max_lon max_lat,
min_lon max_lat, min_lon min_lat))`. -/
structure Bbox where
  min_lon : ℝ
  min_lat : ℝ
  max_lon : ℝ
  max_lat : ℝ

/-- The point set of the bbox rectangle (the WKT polygon built by
`check_coverage`/`add_coverage`). -/
def Bbox.toSet (b : Bbox) : Set (ℝ × ℝ) :=
  {q | b.min_lon ≤ q.1 ∧ q.1 ≤ b.max_lon ∧ b.min_lat ≤ q.2 ∧ q.2 ≤ b.max_lat}

/-- The topological interior of the bbox rectangle. -/
def Bbox.interiorSet (b : Bbox) : Set (ℝ × ℝ) :=
  {q | b.min_lon < q.1 ∧ q.1 < b.max_lon ∧ b.min_lat < q.2 ∧ q.2 < b.max_lat}

/-- A geometrically valid (non-degenerate) bbox. -/
def Bbox.proper (b : Bbox) : Prop :=
  b.min_lon < b.max_lon ∧ b.min_lat < b.max_lat

/-- PostGIS `ST_Contains(A, B)` for the stored rectangles: no point of
`B` lies outside `A`, and the interiors share at least one point. -/
def stContains (A B : Bbox) : Prop :=
  B.toSet ⊆ A.toSet ∧ (A.interiorSet ∩ B.interiorSet).Nonempty

/-- A row of the `coverage_areas` table: the fetched rectangle and the
store count recorded with it (`fetched_at` does not influence any
queried behaviour and is omitted). -/
structure CoverageRecord where
  bbox : Bbox
  store_count : ℕ

/-- `check_coverage(bbox)`: the
`SELECT EXISTS (SELECT 1 FROM coverage_areas WHERE ST_Contains(bbox, q))`
semantics over the table. -/
def check_coverage_sem (coverage_areas : List CoverageRecord) (bbox : Bbox) : Prop :=
  ∃ c ∈ coverage_areas, stContains c.bbox bbox

/-- `add_coverage(bbox, store_count)`: the
`INSERT INTO coverage_areas (bbox, store_count) VALUES (...)` semantics:
append-only, no merging or deduplication. -/
def add_coverage_sem (coverage_areas : List CoverageRecord) (bbox : Bbox)
    (store_count : ℕ) : List CoverageRecord :=
  coverage_areas ++ [⟨bbox, store_count⟩]

/-- A proper rectangle `ST_Contains` itself: the point set is reflexively
included and the centre witnesses the interior intersection. -/
theorem stContains_self {b : Bbox} (hb : b.proper) : stContains b b := by
  refine ⟨subset_rfl, ⟨((b.min_lon + b.max_lon) / 2, (b.min_lat + b.max_lat) / 2),
    ?_, ?_⟩⟩ <;>
  · unfold Bbox.interiorSet
    obtain ⟨h1, h2⟩ := hb
    constructor
    · simp only [Set.mem_setOf_eq]
      linarith
    constructor
    · linarith
    constructor
    · linarith
    · linarith

/-- `ST_Contains` implies plain spatial containment of point sets. -/
theorem stContains_subset {A B : Bbox} (h : stContains A B) :
    B.toSet ⊆ A.toSet := h.1

/-! The error-path model of the same two functions. `execute_query`
opens a connection and runs one statement; its outcome for a given
call is abstracted as an `Except` value. -/

/-- A database-layer exception (`psycopg2.Error` etc.). -/
structure DbError where
  msg : String
deriving DecidableEq

/-- `check_coverage`'s use of its query result: Python's
`bool(result and result[0][0])`: falsy (`None`/empty) gives `False`,
otherwise the first column of the first row decides. -/
def coverage_row_truthy : Option (List (List Bool)) → Bool
  | none => false
  | some [] => false
  | some ([] :: _) => false
  | some ((b :: _) :: _) => b

/-- `check_coverage(bbox)` with the outcome of `execute_query` supplied:
the surrounding `try/except` returns `False` on any raised error. -/
def check_coverage_run (exec_query : Bbox → Except DbError (Option (List (List Bool))))
    (bbox : Bbox) : Bool :=
  match exec_query bbox with
  | .error _ => false
  | .ok r => coverage_row_truthy r

/-- `add_coverage(bbox, store_count)` with the outcome of
`execute_query` supplied: the `except` branch logs and re-`raise`s. -/
def add_coverage_run (exec_query : Bbox × ℕ → Except DbError Unit)
    (bbox : Bbox) (store_count : ℕ) : Except DbError Unit :=
  match exec_query (bbox, store_count) with
  | .error e => .error e
  | .ok _ => .ok ()

/-! ### Store repository

Two keying policies coexist in the source:

* external-id mode (`save_stores_to_db` in `src/db_setup.py`):
  `INSERT ... ON CONFLICT (osm_id, city_id) DO NOTHING` against the
  `grocery_stores` table of `create_schema`;
* alternate mode (`GroceryStoreFetcher` in `src/scripts/grocery_fetcher.py`):
  lookup by `(store_name, ST_Equals(location), city_id)`, then
  `_update_store` when a mutable field differs, else `_touch_store`.

Tables are lists of rows in insertion order; timestamps are abstract
`ℕ` instants; point locations are their WKT strings (`ST_Equals` on
point WKT produced by the same serialiser is string equality). -/

/-- A row of the `grocery_stores` table of `src/db_setup.py`
(`osm_id, city_id, name, shop_type, location, fetched_at`). -/
structure StoreRow where
  osm_id : ℤ
  city_id : ℤ
  name : String
  shop_type : String
  location : String
  fetched_at : ℕ
deriving DecidableEq

/-- One `INSERT ... VALUES (...) ON CONFLICT (osm_id, city_id)
DO NOTHING` statement: the pair with the resulting table and whether a
row was inserted (`cursor.rowcount > 0`). -/
def insert_store_do_nothing (tbl : List StoreRow) (r : StoreRow) :
    List StoreRow × Bool :=
  if tbl.any fun x => x.osm_id == r.osm_id && x.city_id == r.city_id
  then (tbl, false)
  else (tbl ++ [r], true)

/-- The per-row payload `save_stores_to_db` reads off the GeoDataFrame. -/
structure StoreInput where
  osm_id : ℤ
  name : String
  shop_type : String
  location : String

/-- `save_stores_to_db(stores_gdf, city_id)` from `src/db_setup.py`:
each row inserted with ON CONFLICT DO NOTHING, counting the rows
actually inserted; `now` is the transaction's `NOW()` default for
`fetched_at`. -/
def save_stores_to_db (tbl : List StoreRow) (stores_gdf : List StoreInput)
    (city_id : ℤ) (now : ℕ) : List StoreRow × ℕ :=
  stores_gdf.foldl
    (fun acc s =>
      let res := insert_store_do_nothing acc.1
        ⟨s.osm_id, city_id, s.name, s.shop_type, s.location, now⟩
      (res.1, acc.2 + if res.2 then 1 else 0))
    (tbl, 0)

/-- A row of the `grocery_stores` table used by
`src/scripts/grocery_fetcher.py` (`id, store_name, shop_type, location,
city_id, last_updated`). -/
structure ScriptStoreRow where
  id : ℕ
  store_name : String
  shop_type : String
  location : String
  city_id : ℕ
  last_updated : ℕ
deriving DecidableEq

/-- `_get_store_id(store_name, location, city_id)`: first row matching
`store_name = %s AND ST_Equals(location, %s) AND city_id = %s`. -/
def get_store_id (tbl : List ScriptStoreRow) (store_name location : String)
    (city_id : ℕ) : Option ℕ :=
  (tbl.find? fun r =>
    r.store_name == store_name && r.location == location && r.city_id == city_id).map
    fun r => r.id

/-- `_store_needs_update(store_id, store_name, shop_type, location)`:
looks the row up by id and compares the three mutable fields
(the WKT strings compared directly, as in the source). -/
def store_needs_update (tbl : List ScriptStoreRow) (store_id : ℕ)
    (store_name shop_type location : String) : Bool :=
  match tbl.find? fun r => r.id == store_id with
  | none => false
  | some r =>
    r.store_name != store_name || r.shop_type != shop_type ||
      r.location != location

/-- `_update_store(store_id, ...)`: `UPDATE ... SET store_name, shop_type,
location, last_updated = CURRENT_TIMESTAMP WHERE id = %s`. -/
def update_store (tbl : List ScriptStoreRow) (store_id : ℕ)
    (store_name shop_type location : String) (now : ℕ) : List ScriptStoreRow :=
  tbl.map fun r =>
    if r.id == store_id then
      { r with store_name := store_name, shop_type := shop_type,
               location := location, last_updated := now }
    else r

/-- `_touch_store(store_id)`: `UPDATE ... SET last_updated =
CURRENT_TIMESTAMP WHERE id = %s`. -/
def touch_store (tbl : List ScriptStoreRow) (store_id : ℕ) (now : ℕ) :
    List ScriptStoreRow :=
  tbl.map fun r =>
    if r.id == store_id then { r with last_updated := now } else r

/-- One record of the per-row loop of `fetch_and_save_stores`
(lines 210-233 of `src/scripts/grocery_fetcher.py`), with the eventual
batch insert of a new row folded in: unseen key → insert (with the next
SERIAL id), seen and changed → update in place, seen and unchanged →
touch the timestamp. -/
def upsert_store (tbl : List ScriptStoreRow) (next_id : ℕ)
    (store_name shop_type wkt : String) (city_id : ℕ) (now : ℕ) :
    List ScriptStoreRow :=
  match get_store_id tbl store_name wkt city_id with
  | none => tbl ++ [⟨next_id, store_name, shop_type, wkt, city_id, now⟩]
  | some sid =>
    if store_needs_update tbl sid store_name shop_type wkt
    then update_store tbl sid store_name shop_type wkt now
    else touch_store tbl sid now

/-! Facts about the two keying policies. -/

theorem get_store_id_some {tbl : List ScriptStoreRow} {n w : String} {c sid : ℕ}
    (h : get_store_id tbl n w c = some sid) :
    ∃ r0 ∈ tbl, r0.id = sid ∧ r0.store_name = n ∧ r0.location = w ∧
      r0.city_id = c := by
  unfold get_store_id at h
  cases hf : tbl.find? fun r =>
      r.store_name == n && r.location == w && r.city_id == c with
  | none =>
    rw [hf] at h
    simp at h
  | some r0 =>
    rw [hf] at h
    simp only [Option.map_some'] at h
    have hmem := List.mem_of_find?_eq_some hf
    have hpred := List.find?_some hf
    simp only [Bool.and_eq_true, beq_iff_eq] at hpred
    exact ⟨r0, hmem, Option.some.inj h, hpred.1.1, hpred.1.2, hpred.2⟩

theorem update_store_length (tbl : List ScriptStoreRow) (sid : ℕ)
    (n t w : String) (now : ℕ) :
    (update_store tbl sid n t w now).length = tbl.length := by
  unfold update_store
  exact List.length_map _ _

theorem touch_store_length (tbl : List ScriptStoreRow) (sid now : ℕ) :
    (touch_store tbl sid now).length = tbl.length := by
  unfold touch_store
  exact List.length_map _ _

theorem update_store_fields {tbl : List ScriptStoreRow} {sid : ℕ}
    {n t w : String} {now : ℕ} :
    ∀ r ∈ update_store tbl sid n t w now, r.id = sid →
      r.store_name = n ∧ r.shop_type = t ∧ r.location = w ∧
        r.last_updated = now := by
  intro r hr hid
  unfold update_store at hr
  rw [List.mem_map] at hr
  obtain ⟨r0, hr0, heq⟩ := hr
  by_cases h : r0.id = sid
  · rw [if_pos (by simpa using h)] at heq
    rw [← heq]
    exact ⟨rfl, rfl, rfl, rfl⟩
  · rw [if_neg (by simpa using h)] at heq
    rw [← heq] at hid
    exact absurd hid h

theorem touch_store_fields {tbl : List ScriptStoreRow} {sid : ℕ}
    {n t w : String} {now : ℕ}
    (hnodup : (tbl.map fun r => r.id).Nodup)
    (hfound : ∃ r0 ∈ tbl, r0.id = sid ∧ r0.store_name = n ∧ r0.location = w)
    (hnu : store_needs_update tbl sid n t w = false) :
    ∀ r ∈ touch_store tbl sid now, r.id = sid →
      r.store_name = n ∧ r.shop_type = t ∧ r.location = w ∧
        r.last_updated = now := by
  obtain ⟨r0, hr0mem, hr0id, _, _⟩ := hfound
  unfold store_needs_update at hnu
  cases hf : tbl.find? fun r => r.id == sid with
  | none =>
    have := List.find?_eq_none.mp hf r0 hr0mem
    simp [hr0id] at this
  | some r1 =>
    rw [hf] at hnu
    simp only [Bool.or_eq_false_iff, bne_eq_false_iff_eq] at hnu
    obtain ⟨⟨hn1, ht1⟩, hw1⟩ := hnu
    have hr1mem := List.mem_of_find?_eq_some hf
    have hr1id : r1.id = sid := by
      have := List.find?_some hf
      simpa using this
    intro r hr hid
    unfold touch_store at hr
    rw [List.mem_map] at hr
    obtain ⟨r2, hr2mem, heq⟩ := hr
    by_cases h2 : r2.id = sid
    · have h21 : r2 = r1 :=
        List.inj_on_of_nodup_map hnodup hr2mem hr1mem (by rw [h2, hr1id])
      rw [if_pos (by simpa using h2), h21] at heq
      rw [← heq]
      exact ⟨hn1, ht1, hw1, rfl⟩
    · rw [if_neg (by simpa using h2)] at heq
      rw [← heq] at hid
      exact absurd hid h2

/-- Upserting an existing `(store_name, location, city_id)` key in the
alternate keying mode keeps the row count, leaves every row carrying
the matched id with the upserted attributes and a refreshed timestamp,
and keeps every row with a different id untouched. -/
theorem upsert_store_existing {tbl : List ScriptStoreRow} {next_id : ℕ}
    {n t w : String} {c : ℕ} {now : ℕ} {sid : ℕ}
    (hnodup : (tbl.map fun r => r.id).Nodup)
    (h : get_store_id tbl n w c = some sid) :
    (upsert_store tbl next_id n t w c now).length = tbl.length ∧
    (∃ r ∈ upsert_store tbl next_id n t w c now, r.id = sid) ∧
    (∀ r ∈ upsert_store tbl next_id n t w c now, r.id = sid →
      r.store_name = n ∧ r.shop_type = t ∧ r.location = w ∧
        r.last_updated = now) ∧
    (∀ r ∈ tbl, r.id ≠ sid → r ∈ upsert_store tbl next_id n t w c now) := by
  obtain ⟨r0, hr0mem, hr0id, hr0n, hr0w, hr0c⟩ := get_store_id_some h
  have hun : upsert_store tbl next_id n t w c now
      = if store_needs_update tbl sid n t w
        then update_store tbl sid n t w now
        else touch_store tbl sid now := by
    unfold upsert_store
    rw [h]
  rw [hun]
  by_cases hupd : store_needs_update tbl sid n t w = true
  · rw [if_pos hupd]
    refine ⟨update_store_length .., ?_, update_store_fields, ?_⟩
    · refine ⟨(fun r =>
        if r.id == sid then
          { r with store_name := n, shop_type := t,
                   location := w, last_updated := now }
        else r) r0, List.mem_map_of_mem _ hr0mem, ?_⟩
      by_cases hcase : r0.id = sid
      · simp [hcase]
      · exact absurd hr0id hcase
    · intro r hr hne
      unfold update_store
      rw [List.mem_map]
      exact ⟨r, hr, by simp [hne]⟩
  · rw [if_neg hupd]
    rw [Bool.not_eq_true] at hupd
    refine ⟨touch_store_length .., ?_,
      touch_store_fields hnodup ⟨r0, hr0mem, hr0id, hr0n, hr0w⟩ hupd, ?_⟩
    · refine ⟨(fun r =>
        if r.id == sid then { r with last_updated := now } else r) r0,
        List.mem_map_of_mem _ hr0mem, ?_⟩
      by_cases hcase : r0.id = sid
      · simp [hcase]
      · exact absurd hr0id hcase
    · intro r hr hne
      unfold touch_store
      rw [List.mem_map]
      exact ⟨r, hr, by simp [hne]⟩

/-- Inserting an unseen key and then upserting the same key with the
same attributes leaves exactly the one inserted row, attributes intact,
timestamp refreshed to the second upsert's instant. -/
theorem upsert_insert_then_touch (tbl : List ScriptStoreRow)
    (nid nid2 : ℕ) (n t w : String) (c t1 t2 : ℕ)
    (hkey : ∀ r ∈ tbl, ¬(r.store_name = n ∧ r.location = w ∧ r.city_id = c))
    (hfresh : ∀ r ∈ tbl, r.id ≠ nid) :
    upsert_store (upsert_store tbl nid n t w c t1) nid2 n t w c t2
      = tbl ++ [⟨nid, n, t, w, c, t2⟩] := by
  have hpred : ∀ r ∈ tbl,
      ¬(r.store_name == n && r.location == w && r.city_id == c) = true := by
    intro r hr
    simp only [Bool.and_eq_true, beq_iff_eq]
    intro hcontr
    exact hkey r hr ⟨hcontr.1.1, hcontr.1.2, hcontr.2⟩
  have h1 : get_store_id tbl n w c = none := by
    unfold get_store_id
    rw [List.find?_eq_none.mpr hpred]
    rfl
  have hstep1 : upsert_store tbl nid n t w c t1
      = tbl ++ [⟨nid, n, t, w, c, t1⟩] := by
    unfold upsert_store
    rw [h1]
  rw [hstep1]
  have hfind2 : (tbl ++ [(⟨nid, n, t, w, c, t1⟩ : ScriptStoreRow)]).find?
      (fun r => r.store_name == n && r.location == w && r.city_id == c)
        = some ⟨nid, n, t, w, c, t1⟩ := by
    rw [List.find?_append, List.find?_eq_none.mpr hpred]
    simp
  have h2 : get_store_id (tbl ++ [(⟨nid, n, t, w, c, t1⟩ : ScriptStoreRow)]) n w c
      = some nid := by
    unfold get_store_id
    rw [hfind2]
    rfl
  have hfindid : (tbl ++ [(⟨nid, n, t, w, c, t1⟩ : ScriptStoreRow)]).find?
      (fun r => r.id == nid) = some ⟨nid, n, t, w, c, t1⟩ := by
    rw [List.find?_append, List.find?_eq_none.mpr ?_]
    · simp
    · intro r hr
      simpa using hfresh r hr
  have h3 : store_needs_update (tbl ++ [(⟨nid, n, t, w, c, t1⟩ : ScriptStoreRow)])
      nid n t w = false := by
    unfold store_needs_update
    rw [hfindid]
    simp
  have hun2 : upsert_store (tbl ++ [(⟨nid, n, t, w, c, t1⟩ : ScriptStoreRow)])
      nid2 n t w c t2
      = if store_needs_update (tbl ++ [(⟨nid, n, t, w, c, t1⟩ : ScriptStoreRow)])
          nid n t w
        then update_store (tbl ++ [(⟨nid, n, t, w, c, t1⟩ : ScriptStoreRow)])
          nid n t w t2
        else touch_store (tbl ++ [(⟨nid, n, t, w, c, t1⟩ : ScriptStoreRow)])
          nid t2 := by
    unfold upsert_store
    rw [h2]
  rw [hun2, if_neg (by rw [h3]; simp)]
  unfold touch_store
  rw [List.map_append]
  congr 1
  · rw [List.map_congr_left, List.map_id]
    intro r hr
    rw [if_neg (by simpa using hfresh r hr)]
    rfl
  · simp

/-- A conflicting `INSERT ... ON CONFLICT DO NOTHING` leaves the table
untouched (old attributes kept, no new row, `rowcount = 0`). -/
theorem insert_do_nothing_conflict (tbl : List StoreRow) (r : StoreRow)
    (h : ∃ x ∈ tbl, x.osm_id = r.osm_id ∧ x.city_id = r.city_id) :
    insert_store_do_nothing tbl r = (tbl, false) := by
  unfold insert_store_do_nothing
  have hc : (tbl.any fun x => x.osm_id == r.osm_id && x.city_id == r.city_id)
      = true := by
    rw [List.any_eq_true]
    obtain ⟨x, hx, h1, h2⟩ := h
    exact ⟨x, hx, by simp [h1, h2]⟩
  rw [if_pos hc]

/-- A non-conflicting insert appends, and a second insert of the same
`(osm_id, city_id)` key is a no-op: the table keeps the first row,
its `fetched_at` included. -/
theorem insert_do_nothing_idempotent (tbl : List StoreRow) (row row' : StoreRow)
    (hnc : ∀ x ∈ tbl, ¬(x.osm_id = row.osm_id ∧ x.city_id = row.city_id))
    (hk1 : row'.osm_id = row.osm_id) (hk2 : row'.city_id = row.city_id) :
    insert_store_do_nothing tbl row = (tbl ++ [row], true) ∧
    insert_store_do_nothing (tbl ++ [row]) row' = (tbl ++ [row], false) := by
  constructor
  · unfold insert_store_do_nothing
    rw [if_neg ?_]
    rw [Bool.not_eq_true, List.any_eq_false]
    intro x hx
    simp only [Bool.and_eq_true, beq_iff_eq, not_and]
    intro h1 h2
    exact hnc x hx ⟨h1, h2⟩
  · refine insert_do_nothing_conflict _ _ ⟨row, ?_, hk1.symm, hk2.symm⟩
    simp

/-- A one-row `save_stores_to_db` batch whose `(osm_id, city_id)` key
already exists: the `DO NOTHING` conflict policy leaves the table
exactly as it was and reports zero rows saved. -/
theorem save_stores_to_db_conflict (tbl : List StoreRow) (s : StoreInput)
    (city_id : ℤ) (now : ℕ)
    (h : ∃ x ∈ tbl, x.osm_id = s.osm_id ∧ x.city_id = city_id) :
    save_stores_to_db tbl [s] city_id now = (tbl, 0) := by
  have hins := insert_do_nothing_conflict tbl
    ⟨s.osm_id, city_id, s.name, s.shop_type, s.location, now⟩ h
  unfold save_stores_to_db
  rw [List.foldl_cons, List.foldl_nil]
  show ((insert_store_do_nothing tbl
      ⟨s.osm_id, city_id, s.name, s.shop_type, s.location, now⟩).1,
    0 + if (insert_store_do_nothing tbl
      ⟨s.osm_id, city_id, s.name, s.shop_type, s.location, now⟩).2
      then 1 else 0) = (tbl, 0)
  rw [hins]
  simp


/-! ### Ingestion pipeline -/

/-- An upstream map-data failure (OSM fetch error / timeout). -/
structure UpstreamError where
  msg : String
deriving DecidableEq

/-- A normalized record produced by the Fetch+Normalize steps. -/
structure RawStore where
  store_name : String
  shop_type : String
  location : String
deriving DecidableEq

/-- The persistent state the pipeline writes through: the store table
and the coverage log. -/
structure PipelineState where
  stores : List ScriptStoreRow
  coverage : List CoverageRecord

/-- The Persist step: upsert each normalized record in order, drawing
fresh SERIAL ids from a counter. -/
def persist_stores (tbl : List ScriptStoreRow) (records : List RawStore)
    (city_id next_id now : ℕ) : List ScriptStoreRow :=
  (records.foldl
    (fun acc rcd =>
      (upsert_store acc.1 acc.2 rcd.store_name rcd.shop_type rcd.location
        city_id now, acc.2 + 1))
    (tbl, next_id)).1

/-- Modelled from the spec: `check_coverage`/`add_coverage`
(`src/scripts/db_setup.py`) and the fetch-then-persist body of
`fetch_and_save_stores` (`src/scripts/grocery_fetcher.py`) are in the
repository, but no caller under `src/` wires them into the §4.4
ingestion state machine (CheckCoverage → Fetch → Normalize → Persist →
RecordCoverage); `run_ingestion` follows spec §4.4: terminal `Skipped`
when the region is already covered, on fetch failure propagate the
error with no state change (no coverage recorded, no rows persisted —
in `fetch_and_save_stores` the OSM fetch precedes every database
write and exceptions re-raise), otherwise persist all records and
append exactly one CoverageRecord with the store count. -/
noncomputable def run_ingestion (st : PipelineState) (bbox : Bbox)
    (fetch_result : Except UpstreamError (List RawStore))
    (city_id next_id now : ℕ) : PipelineState × Except UpstreamError ℕ :=
  open Classical in
  if check_coverage_sem st.coverage bbox then (st, .ok 0)
  else
    match fetch_result with
    | .error e => (st, .error e)
    | .ok records =>
      let stores' := persist_stores st.stores records city_id next_id now
      (⟨stores', add_coverage_sem st.coverage bbox records.length⟩,
        .ok records.length)

/-! ### Coverage percentage: `calculate_coverage_percentage`
(`src/utils/geo_utils.py`, lines 323-402).

The geometry calls it delegates to geopandas/shapely — buffering in an
estimated-UTM frame followed by `unary_union`, `intersection`, and area
in the shared estimated-UTM frame — are abstracted as an opaque family
of operations over a geometry type `G`; everything the Python function
does itself (emptiness sentinels, the polygonal-type guard, the km²
conversion, the percentage and the rounding) is explicit. -/

/-- The result dictionary of `calculate_coverage_percentage`. -/
structure CoverageResult where
  covered_area_km2 : ℝ
  total_area_km2 : ℝ
  coverage_percentage : ℝ
  uncovered_area_km2 : ℝ

/-- `default_result`: the all-zero dictionary. -/
def default_result : CoverageResult := ⟨0, 0, 0, 0⟩

/-- The geometry operations delegated to geopandas/shapely. -/
structure GeoBackend (G : Type) where
  buffer_union : List G → ℝ → G
  intersection : G → G → G
  utm_area_m2 : G → ℝ
  is_polygonal : G → Bool

/-- `calculate_coverage_percentage(stores_gdf, boundary_gdf,
radius_meters)`: `None` or empty inputs (and a non-polygonal boundary)
yield the all-zero dictionary; otherwise the covered area is the
intersection of the buffered-store union with the boundary, both areas
are taken in the same projected frame, the percentage is computed from
the unrounded areas, and rounding happens only on the returned fields
(2 decimals for areas, 1 for the percentage). -/
noncomputable def calculate_coverage_percentage {G : Type}
    (geo : GeoBackend G) (stores_gdf : Option (List G))
    (boundary_gdf : Option (List G)) (radius_meters : ℝ) : CoverageResult :=
  open Classical in
  match stores_gdf, boundary_gdf with
  | none, _ => default_result
  | _, none => default_result
  | some stores, some boundary =>
    if stores.isEmpty then default_result
    else if boundary.isEmpty then default_result
    else
      match boundary.head? with
      | none => default_result
      | some city_boundary_geom =>
        if geo.is_polygonal city_boundary_geom then
          let merged_buffers := geo.buffer_union stores radius_meters
          let covered_area_geom :=
            geo.intersection merged_buffers city_boundary_geom
          let covered_area_km2 := geo.utm_area_m2 covered_area_geom / 1000000
          let total_area_km2 := geo.utm_area_m2 city_boundary_geom / 1000000
          let coverage_pct :=
            if total_area_km2 > 0 then covered_area_km2 / total_area_km2 * 100
            else 0
          ⟨round2 covered_area_km2, round2 total_area_km2,
            round1 coverage_pct, round2 (total_area_km2 - covered_area_km2)⟩
        else default_result

/-! ### Claim theorems -/

theorem calculate_distance_philly_nyc_bracket :
    129 ≤ calculate_distance (39.9526, -75.1652) (40.7128, -74.0060) ∧
    calculate_distance (39.9526, -75.1652) (40.7128, -74.0060) ≤ 131 := by
  obtain ⟨h1, h2⟩ := raw_philly_nyc_bracket
  have hb := abs_round2_sub
    (raw_haversine_distance (39.9526, -75.1652) (40.7128, -74.0060))
  rw [abs_le] at hb
  unfold calculate_distance
  constructor <;> linarith [hb.1, hb.2]

/-- C1: coverage containment is conservative. Recording a (valid)
bounding box `R` makes `is_covered(R)` true — in particular an exact
match of a recorded region is covered — and any query box not fully
spatially contained in some recorded coverage polygon (partial overlaps
and disjoint boxes included) is reported uncovered. -/
theorem C1_coverage_containment_conservative :
    (∀ (tbl : List CoverageRecord) (R : Bbox) (n : ℕ), R.proper →
      check_coverage_sem (add_coverage_sem tbl R n) R) ∧
    (∀ (tbl : List CoverageRecord) (Rq : Bbox),
      (∀ c ∈ tbl, ¬ Rq.toSet ⊆ c.bbox.toSet) →
      ¬ check_coverage_sem tbl Rq) := by
  constructor
  · intro tbl R n hR
    exact ⟨⟨R, n⟩, by simp [add_coverage_sem], stContains_self hR⟩
  · rintro tbl Rq hnc ⟨c, hc, hcont⟩
    exact hnc c hc hcont.1

/-- Witness for C1: a concrete recorded unit square is covered; a
partially overlapping box and a disjoint box are not. -/
theorem C1_witness :
    (Bbox.mk 0 0 1 1).proper ∧
    check_coverage_sem (add_coverage_sem [] ⟨0, 0, 1, 1⟩ 5) ⟨0, 0, 1, 1⟩ ∧
    ¬ check_coverage_sem [⟨⟨0, 0, 1, 1⟩, 5⟩] ⟨0.5, 0, 1.5, 1⟩ ∧
    ¬ check_coverage_sem [⟨⟨0, 0, 1, 1⟩, 5⟩] ⟨2, 2, 3, 3⟩ := by
  have hproper : (Bbox.mk 0 0 1 1).proper := by
    constructor <;> norm_num
  have hsub1 : ∀ c ∈ [CoverageRecord.mk ⟨0, 0, 1, 1⟩ 5],
      ¬ (Bbox.mk 0.5 0 1.5 1).toSet ⊆ c.bbox.toSet := by
    intro c hc
    rw [List.mem_singleton] at hc
    subst hc
    intro hsub
    have hmem : ((1.5 : ℝ), (0.5 : ℝ)) ∈ (Bbox.mk 0.5 0 1.5 1).toSet := by
      unfold Bbox.toSet
      norm_num
    have := hsub hmem
    unfold Bbox.toSet at this
    norm_num at this
  have hsub2 : ∀ c ∈ [CoverageRecord.mk ⟨0, 0, 1, 1⟩ 5],
      ¬ (Bbox.mk 2 2 3 3).toSet ⊆ c.bbox.toSet := by
    intro c hc
    rw [List.mem_singleton] at hc
    subst hc
    intro hsub
    have hmem : ((2 : ℝ), (2 : ℝ)) ∈ (Bbox.mk 2 2 3 3).toSet := by
      unfold Bbox.toSet
      norm_num
    have := hsub hmem
    unfold Bbox.toSet at this
    norm_num at this
  exact ⟨hproper,
    C1_coverage_containment_conservative.1 [] ⟨0, 0, 1, 1⟩ 5 hproper,
    C1_coverage_containment_conservative.2 _ _ hsub1,
    C1_coverage_containment_conservative.2 _ _ hsub2⟩

/-- C4: `calculate_distance` is symmetric, zero on equal points,
implements the haversine formula on a sphere of radius exactly 6371.0
km (it returns the 2-decimal rounding of the spec's
`2 * R * arcsin (sqrt a)` for geographically valid latitudes), and the
Philadelphia–New York distance lies between 129 and 131 km. -/
theorem C4_geodesic_distance_correct :
    (∀ p q : ℝ × ℝ, calculate_distance p q = calculate_distance q p) ∧
    (∀ p : ℝ × ℝ, calculate_distance p p = 0) ∧
    (∀ p q : ℝ × ℝ, -90 ≤ p.1 → p.1 ≤ 90 → -90 ≤ q.1 → q.1 ≤ 90 →
      calculate_distance p q = round2 (spec_haversine_distance p q)) ∧
    (129 ≤ calculate_distance (39.9526, -75.1652) (40.7128, -74.0060) ∧
      calculate_distance (39.9526, -75.1652) (40.7128, -74.0060) ≤ 131) := by
  refine ⟨calculate_distance_comm, calculate_distance_self, ?_,
    calculate_distance_philly_nyc_bracket⟩
  intro p q h1 h2 h3 h4
  unfold calculate_distance
  rw [raw_eq_spec_haversine p q ⟨h1, h2⟩ ⟨h3, h4⟩]

/-- Witness for C4 at the Philadelphia/New York coordinates. -/
theorem C4_witness :
    ((-90 : ℝ) ≤ 39.9526 ∧ (39.9526 : ℝ) ≤ 90 ∧
      (-90 : ℝ) ≤ 40.7128 ∧ (40.7128 : ℝ) ≤ 90) ∧
    calculate_distance (39.9526, -75.1652) (40.7128, -74.0060)
      = round2 (spec_haversine_distance (39.9526, -75.1652)
          (40.7128, -74.0060)) :=
  ⟨⟨by norm_num, by norm_num, by norm_num, by norm_num⟩,
    C4_geodesic_distance_correct.2.2.1 (39.9526, -75.1652)
      (40.7128, -74.0060) (by norm_num) (by norm_num) (by norm_num)
      (by norm_num)⟩

open Classical in
/-- C5 (amended): `calculate_distance` rounds its result to 2 decimals
internally, so the per-store distances that nearest-store search and
radius counting compare against each other and against the radius
threshold are the ROUNDED haversine values, not the unrounded ones;
rounding of areas and percentages does happen only at the return of the
coverage computation. -/
theorem C5_distances_rounded_internally :
    (∀ p q : ℝ × ℝ, calculate_distance p q
      = round2 (raw_haversine_distance p q)) ∧
    (∀ (p : ℝ × ℝ) (S : List (ℝ × ℝ)) (r : ℝ),
      count_stores_in_radius p S r
        = (S.filter fun s => round2 (raw_haversine_distance p s) ≤ r).length) ∧
    (∀ (p : ℝ × ℝ) (S : List (ℝ × ℝ)),
      find_nearest_store p S
        = pyMinByDist (S.enum.map fun e =>
            (e.1, round2 (raw_haversine_distance p e.2)))) := by
  refine ⟨fun p q => rfl, ?_, fun p S => rfl⟩
  intro p S r
  exact count_stores_eq_filter p S r

/-- Counterexample for C5 as stated: for the antipodal-longitude pair
`(0,0)`/`(0,180)` the unrounded haversine distance is `6371 * π`, an
irrational number, while `calculate_distance` returns a rational
multiple of `1/100` — so the distance the scans use is NOT the
unrounded haversine value. -/
theorem C5_counterexample :
    calculate_distance (0, 0) (0, 180)
      ≠ raw_haversine_distance (0, 0) (0, 180) := by
  have ha : haversine_a (0, 0) (0, 180) = 1 := by
    show sin ((radians 0 - radians 0) / 2) ^ 2
        + cos (radians 0) * cos (radians 0)
          * sin ((radians 180 - radians 0) / 2) ^ 2 = 1
    rw [show (radians 0 - radians 0) / 2 = 0 by unfold radians; ring,
      show (radians 180 - radians 0) / 2 = π / 2 by unfold radians; ring,
      show radians 0 = 0 by unfold radians; ring]
    rw [Real.sin_zero, Real.cos_zero, Real.sin_pi_div_two]
    ring
  have hraw : raw_haversine_distance (0, 0) (0, 180) = 6371 * π := by
    show 6371.0 * (2 * atan2 (Real.sqrt (haversine_a (0, 0) (0, 180)))
        (Real.sqrt (1 - haversine_a (0, 0) (0, 180)))) = 6371 * π
    rw [ha]
    norm_num [Real.sqrt_one, atan2_one_zero]
    ring
  intro heq
  rw [hraw] at heq
  have hcd : calculate_distance (0, 0) (0, 180)
      = (roundHalfEven (6371 * π * 100) : ℝ) / 100 := by
    unfold calculate_distance round2
    rw [hraw]
  rw [hcd] at heq
  have hπ : π = (roundHalfEven (6371 * π * 100) : ℝ) / 637100 := by
    field_simp at heq ⊢
    linarith [heq]
  have hirr : Irrational π := irrational_pi
  rw [hπ] at hirr
  have hrat : ¬ Irrational ((roundHalfEven (6371 * π * 100) : ℝ) / 637100) := by
    have hcast : ((roundHalfEven (6371 * π * 100) : ℝ) / 637100)
        = (((roundHalfEven (6371 * π * 100) : ℚ) / 637100 : ℚ) : ℝ) := by
      push_cast
      ring
    rw [hcast]
    exact Rat.not_irrational _
  exact hrat hirr

open Classical in
/-- C6: `count_stores_in_radius` equals the number of stores whose
distance (as computed by the program's geodesic `calculate_distance`)
is at most the radius; `find_nearest_store` returns `none` iff the
store set is empty, and otherwise an index/distance pair achieving the
minimum distance with ties broken by first-encountered order. -/
theorem C6_nearest_count_consistency :
    (∀ (p : ℝ × ℝ) (S : List (ℝ × ℝ)) (r : ℝ),
      count_stores_in_radius p S r
        = (S.filter fun s => calculate_distance p s ≤ r).length) ∧
    (∀ (p : ℝ × ℝ) (S : List (ℝ × ℝ)),
      find_nearest_store p S = none ↔ S = []) ∧
    (∀ (p : ℝ × ℝ) (S : List (ℝ × ℝ)) (i : ℕ) (d : ℝ),
      find_nearest_store p S = some (i, d) →
      ∃ hi : i < S.length,
        d = calculate_distance p (S.get ⟨i, hi⟩) ∧
        (∀ j (hj : j < S.length), d ≤ calculate_distance p (S.get ⟨j, hj⟩)) ∧
        (∀ j (hj : j < i),
          d < calculate_distance p (S.get ⟨j, lt_trans hj hi⟩))) :=
  ⟨count_stores_eq_filter, find_nearest_store_none_iff, find_nearest_store_spec⟩

open Classical in
/-- Witness for C6: the empty store set and a singleton store set at
the query point itself. -/
theorem C6_witness :
    (count_stores_in_radius (0, 0) [] 1
      = (([] : List (ℝ × ℝ)).filter fun s =>
          calculate_distance (0, 0) s ≤ 1).length) ∧
    (find_nearest_store (0, 0) ([] : List (ℝ × ℝ)) = none
      ↔ ([] : List (ℝ × ℝ)) = []) ∧
    (∃ hi : (0 : ℕ) < [((0 : ℝ), (0 : ℝ))].length,
      calculate_distance (0, 0) (0, 0)
        = calculate_distance (0, 0) ([((0 : ℝ), (0 : ℝ))].get ⟨0, hi⟩) ∧
      (∀ j (hj : j < [((0 : ℝ), (0 : ℝ))].length),
        calculate_distance (0, 0) (0, 0)
          ≤ calculate_distance (0, 0) ([((0 : ℝ), (0 : ℝ))].get ⟨j, hj⟩)) ∧
      (∀ j (hj : j < 0),
        calculate_distance (0, 0) (0, 0)
          < calculate_distance (0, 0)
              ([((0 : ℝ), (0 : ℝ))].get ⟨j, lt_trans hj hi⟩))) :=
  ⟨C6_nearest_count_consistency.1 (0, 0) [] 1,
   C6_nearest_count_consistency.2.1 (0, 0) [],
   C6_nearest_count_consistency.2.2 (0, 0) [((0 : ℝ), (0 : ℝ))] 0
     (calculate_distance (0, 0) (0, 0)) rfl⟩

/-- C7: the classification of `src/app.py` is Desert exactly on count
0, Limited exactly on counts 1-2, and Good exactly from 3 up. -/
theorem C7_classification_boundaries :
    ∀ count : ℕ,
      (classify count = .desert ↔ count = 0) ∧
      (classify count = .limited ↔ 0 < count ∧ count < 3) ∧
      (classify count = .good ↔ 3 ≤ count) := by
  intro count
  unfold classify
  refine ⟨?_, ?_, ?_⟩ <;> split_ifs with h1 h2 <;> simp_all <;> omega

/-- C2 (amended): under the external-id dedup key, the conflict policy
is `DO NOTHING`: both the single conflicting statement and a
`save_stores_to_db` batch containing the existing key leave the row
count unchanged with the stored attributes KEPT, not replaced.
Attributes are replaced in place only in the alternate
`(name, location, city)` keying mode, where an upsert of an existing
key keeps the row count, rewrites every row carrying the matched id
with the new attributes (refreshing its timestamp) and leaves all
other rows untouched. -/
theorem C2_upsert_update_semantics :
    (∀ (tbl : List StoreRow) (r : StoreRow),
      (∃ x ∈ tbl, x.osm_id = r.osm_id ∧ x.city_id = r.city_id) →
      insert_store_do_nothing tbl r = (tbl, false)) ∧
    (∀ (tbl : List StoreRow) (s : StoreInput) (city_id : ℤ) (now : ℕ),
      (∃ x ∈ tbl, x.osm_id = s.osm_id ∧ x.city_id = city_id) →
      save_stores_to_db tbl [s] city_id now = (tbl, 0)) ∧
    (∀ (tbl : List ScriptStoreRow) (next_id : ℕ) (n t w : String)
        (c now sid : ℕ),
      (tbl.map fun r => r.id).Nodup →
      get_store_id tbl n w c = some sid →
      (upsert_store tbl next_id n t w c now).length = tbl.length ∧
      (∃ r ∈ upsert_store tbl next_id n t w c now, r.id = sid) ∧
      (∀ r ∈ upsert_store tbl next_id n t w c now, r.id = sid →
        r.store_name = n ∧ r.shop_type = t ∧ r.location = w ∧
          r.last_updated = now) ∧
      (∀ r ∈ tbl, r.id ≠ sid → r ∈ upsert_store tbl next_id n t w c now)) :=
  ⟨insert_do_nothing_conflict, save_stores_to_db_conflict,
   fun _ _ _ _ _ _ _ _ hnd h => upsert_store_existing hnd h⟩

/-- Counterexample for C2 as stated: upserting an existing external id
with a different name and category via
`INSERT ... ON CONFLICT (osm_id, city_id) DO NOTHING` leaves the old
attributes in place — the stored name is still the old one, not the
newly upserted one. -/
theorem C2_counterexample :
    (insert_store_do_nothing
        [⟨1, 1, "Acme Market", "grocery", "POINT(0 0)", 0⟩]
        ⟨1, 1, "Acme Market Redux", "supermarket", "POINT(0 0)", 5⟩).1
      = [⟨1, 1, "Acme Market", "grocery", "POINT(0 0)", 0⟩] ∧
    ("Acme Market" : String) ≠ "Acme Market Redux" := by
  exact ⟨rfl, by decide⟩

/-- Witness for C2 (amended) at concrete tables in both keying modes. -/
theorem C2_witness :
    (∃ x ∈ [(⟨1, 1, "Acme Market", "grocery", "POINT(0 0)", 0⟩ : StoreRow)],
      x.osm_id = (⟨1, 1, "Acme B", "supermarket", "POINT(0 0)", 7⟩ :
        StoreRow).osm_id ∧
      x.city_id = (⟨1, 1, "Acme B", "supermarket", "POINT(0 0)", 7⟩ :
        StoreRow).city_id) ∧
    insert_store_do_nothing
        [⟨1, 1, "Acme Market", "grocery", "POINT(0 0)", 0⟩]
        ⟨1, 1, "Acme B", "supermarket", "POINT(0 0)", 7⟩
      = ([⟨1, 1, "Acme Market", "grocery", "POINT(0 0)", 0⟩], false) ∧
    save_stores_to_db [⟨1, 1, "Acme Market", "grocery", "POINT(0 0)", 0⟩]
        [⟨1, "Acme B", "supermarket", "POINT(0 0)"⟩] 1 7
      = ([⟨1, 1, "Acme Market", "grocery", "POINT(0 0)", 0⟩], 0) ∧
    (([(⟨1, "Acme", "grocery", "POINT(0 0)", 1, 0⟩ : ScriptStoreRow)].map
        fun r => r.id).Nodup ∧
      get_store_id [⟨1, "Acme", "grocery", "POINT(0 0)", 1, 0⟩]
        "Acme" "POINT(0 0)" 1 = some 1) ∧
    ((upsert_store [⟨1, "Acme", "grocery", "POINT(0 0)", 1, 0⟩] 2
        "Acme" "supermarket" "POINT(0 0)" 1 9).length
      = [(⟨1, "Acme", "grocery", "POINT(0 0)", 1, 0⟩ : ScriptStoreRow)].length ∧
      (∃ r ∈ upsert_store [⟨1, "Acme", "grocery", "POINT(0 0)", 1, 0⟩] 2
          "Acme" "supermarket" "POINT(0 0)" 1 9, r.id = 1) ∧
      (∀ r ∈ upsert_store [⟨1, "Acme", "grocery", "POINT(0 0)", 1, 0⟩] 2
          "Acme" "supermarket" "POINT(0 0)" 1 9, r.id = 1 →
        r.store_name = "Acme" ∧ r.shop_type = "supermarket" ∧
          r.location = "POINT(0 0)" ∧ r.last_updated = 9) ∧
      (∀ r ∈ [(⟨1, "Acme", "grocery", "POINT(0 0)", 1, 0⟩ : ScriptStoreRow)],
        r.id ≠ 1 →
        r ∈ upsert_store [⟨1, "Acme", "grocery", "POINT(0 0)", 1, 0⟩] 2
          "Acme" "supermarket" "POINT(0 0)" 1 9)) := by
  refine ⟨⟨⟨1, 1, "Acme Market", "grocery", "POINT(0 0)", 0⟩, by simp, rfl, rfl⟩,
    C2_upsert_update_semantics.1 _ _
      ⟨⟨1, 1, "Acme Market", "grocery", "POINT(0 0)", 0⟩, by simp, rfl, rfl⟩,
    C2_upsert_update_semantics.2.1 _ ⟨1, "Acme B", "supermarket", "POINT(0 0)"⟩
      1 7 ⟨⟨1, 1, "Acme Market", "grocery", "POINT(0 0)", 0⟩, by simp, rfl, rfl⟩,
    ⟨by simp, rfl⟩,
    C2_upsert_update_semantics.2.2 _ 2 "Acme" "supermarket" "POINT(0 0)" 1 9 1
      (by simp) rfl⟩

/-- C3 (amended): upserting the same dedup key twice with identical
attributes is idempotent in both keying modes — exactly one row, with
name, category and location unchanged. The second upsert refreshes the
last-modified timestamp in the alternate `(name, location, city)` mode
(`_touch_store`); in the external-id `DO NOTHING` mode the stored
timestamp is NOT refreshed. -/
theorem C3_idempotent_upsert :
    (∀ (tbl : List ScriptStoreRow) (nid nid2 : ℕ) (n t w : String)
        (c t1 t2 : ℕ),
      (∀ r ∈ tbl, ¬(r.store_name = n ∧ r.location = w ∧ r.city_id = c)) →
      (∀ r ∈ tbl, r.id ≠ nid) →
      upsert_store (upsert_store tbl nid n t w c t1) nid2 n t w c t2
        = tbl ++ [⟨nid, n, t, w, c, t2⟩]) ∧
    (∀ (tbl : List StoreRow) (row rw2 : StoreRow),
      (∀ x ∈ tbl, ¬(x.osm_id = row.osm_id ∧ x.city_id = row.city_id)) →
      rw2.osm_id = row.osm_id → rw2.city_id = row.city_id →
      insert_store_do_nothing tbl row = (tbl ++ [row], true) ∧
      insert_store_do_nothing (tbl ++ [row]) rw2 = (tbl ++ [row], false)) :=
  ⟨upsert_insert_then_touch, insert_do_nothing_idempotent⟩

/-- Counterexample for C3 as stated: in the external-id mode the second
identical-attribute upsert at instant 5 leaves the stored
`fetched_at` at its original instant 0 — the last-modified timestamp is
NOT refreshed. -/
theorem C3_counterexample :
    (insert_store_do_nothing
      (insert_store_do_nothing []
        (⟨1, 1, "Acme", "grocery", "POINT(0 0)", 0⟩ : StoreRow)).1
      ⟨1, 1, "Acme", "grocery", "POINT(0 0)", 5⟩).1
      = [⟨1, 1, "Acme", "grocery", "POINT(0 0)", 0⟩] ∧
    (0 : ℕ) ≠ 5 := by
  exact ⟨rfl, by decide⟩

/-- Witness for C3 (amended): a fresh key inserted then re-upserted
with identical attributes, in both keying modes. -/
theorem C3_witness :
    upsert_store (upsert_store [] 1 "Acme" "grocery" "POINT(0 0)" 1 0) 2
        "Acme" "grocery" "POINT(0 0)" 1 5
      = [] ++ [⟨1, "Acme", "grocery", "POINT(0 0)", 1, 5⟩] ∧
    (insert_store_do_nothing []
        (⟨1, 1, "Acme", "grocery", "POINT(0 0)", 0⟩ : StoreRow)
      = ([] ++ [⟨1, 1, "Acme", "grocery", "POINT(0 0)", 0⟩], true) ∧
     insert_store_do_nothing
        ([] ++ [(⟨1, 1, "Acme", "grocery", "POINT(0 0)", 0⟩ : StoreRow)])
        ⟨1, 1, "Acme", "grocery", "POINT(0 0)", 3⟩
      = ([] ++ [⟨1, 1, "Acme", "grocery", "POINT(0 0)", 0⟩], false)) :=
  ⟨C3_idempotent_upsert.1 [] 1 2 "Acme" "grocery" "POINT(0 0)" 1 0 5
      (by simp) (by simp),
   C3_idempotent_upsert.2 []
      ⟨1, 1, "Acme", "grocery", "POINT(0 0)", 0⟩
      ⟨1, 1, "Acme", "grocery", "POINT(0 0)", 3⟩
      (by simp) rfl rfl⟩

/-- C8: `calculate_coverage_percentage` returns the all-zero result on
`None` or empty store/boundary inputs (and on a non-polygonal boundary)
instead of raising; on non-empty inputs it intersects the
buffered-store union with the boundary, takes both areas in the same
projected frame, computes the percentage from the unrounded areas, and
rounds only the returned fields (2 decimals for areas, 1 decimal for
the percentage). -/
theorem C8_coverage_sentinel_and_rounding :
    (∀ (G : Type) (geo : GeoBackend G) (b : Option (List G)) (r : ℝ),
      calculate_coverage_percentage geo none b r = default_result) ∧
    (∀ (G : Type) (geo : GeoBackend G) (sg : Option (List G)) (r : ℝ),
      calculate_coverage_percentage geo sg none r = default_result) ∧
    (∀ (G : Type) (geo : GeoBackend G) (b : List G) (r : ℝ),
      calculate_coverage_percentage geo (some []) (some b) r
        = default_result) ∧
    (∀ (G : Type) (geo : GeoBackend G) (sg : List G) (r : ℝ),
      calculate_coverage_percentage geo (some sg) (some []) r
        = default_result) ∧
    (∀ (G : Type) (geo : GeoBackend G) (stores boundary : List G)
        (city : G) (r : ℝ),
      stores ≠ [] → boundary.head? = some city →
      geo.is_polygonal city = true →
      calculate_coverage_percentage geo (some stores) (some boundary) r
        = ⟨round2 (geo.utm_area_m2
              (geo.intersection (geo.buffer_union stores r) city) / 1000000),
           round2 (geo.utm_area_m2 city / 1000000),
           round1 (if geo.utm_area_m2 city / 1000000 > 0 then
             geo.utm_area_m2
                 (geo.intersection (geo.buffer_union stores r) city) / 1000000
               / (geo.utm_area_m2 city / 1000000) * 100
             else 0),
           round2 (geo.utm_area_m2 city / 1000000
             - geo.utm_area_m2
                 (geo.intersection (geo.buffer_union stores r) city)
                   / 1000000)⟩) := by
  refine ⟨?_, ?_, ?_, ?_, ?_⟩
  · intro G geo b r
    cases b <;> rfl
  · intro G geo sg r
    cases sg <;> rfl
  · intro G geo b r
    rfl
  · intro G geo sg r
    cases sg <;> rfl
  · intro G geo stores boundary city r hs hb hpoly
    cases stores with
    | nil => exact absurd rfl hs
    | cons s0 st =>
      cases boundary with
      | nil => simp at hb
      | cons b0 bt =>
        have hb0 : b0 = city := by
          simpa using hb
        subst hb0
        have hred : calculate_coverage_percentage geo (some (s0 :: st))
            (some (b0 :: bt)) r
            = if geo.is_polygonal b0 then
                ⟨round2 (geo.utm_area_m2
                    (geo.intersection (geo.buffer_union (s0 :: st) r) b0)
                      / 1000000),
                 round2 (geo.utm_area_m2 b0 / 1000000),
                 round1 (if geo.utm_area_m2 b0 / 1000000 > 0 then
                   geo.utm_area_m2
                       (geo.intersection (geo.buffer_union (s0 :: st) r) b0)
                         / 1000000
                     / (geo.utm_area_m2 b0 / 1000000) * 100
                   else 0),
                 round2 (geo.utm_area_m2 b0 / 1000000
                   - geo.utm_area_m2
                       (geo.intersection (geo.buffer_union (s0 :: st) r) b0)
                         / 1000000)⟩
              else default_result := rfl
        rw [hred, if_pos hpoly]

/-- Witness for C8: a trivial one-geometry backend over `Unit`. -/
theorem C8_witness :
    calculate_coverage_percentage
        (⟨fun _ _ => (), fun _ _ => (), fun _ => 3000000, fun _ => true⟩ :
          GeoBackend Unit) none (some [()]) 500 = default_result ∧
    (([()] : List Unit) ≠ [] ∧ ([()] : List Unit).head? = some () ∧
      (⟨fun _ _ => (), fun _ _ => (), fun _ => 3000000, fun _ => true⟩ :
        GeoBackend Unit).is_polygonal () = true) ∧
    calculate_coverage_percentage
        (⟨fun _ _ => (), fun _ _ => (), fun _ => 3000000, fun _ => true⟩ :
          GeoBackend Unit) (some [()]) (some [()]) 500
      = ⟨round2 3, round2 3, round1 (if (3 : ℝ) > 0 then 3 / 3 * 100 else 0),
          round2 0⟩ := by
  have hgeo := C8_coverage_sentinel_and_rounding.2.2.2.2 Unit
    ⟨fun _ _ => (), fun _ _ => (), fun _ => 3000000, fun _ => true⟩
    [()] [()] () 500 (by simp) rfl rfl
  refine ⟨C8_coverage_sentinel_and_rounding.1 Unit _ (some [()]) 500, 
    ⟨by simp, rfl, rfl⟩, ?_⟩
  rw [hgeo]
  norm_num

/-- C9: when the region is uncovered, a fetch failure propagates the
error and leaves the whole state (store rows and coverage log)
unchanged; a subsequent retry whose fetch succeeds returns the record
count and appends exactly one CoverageRecord. -/
theorem C9_fetch_failure_atomicity :
    ∀ (st : PipelineState) (bbox : Bbox) (e : UpstreamError)
      (records : List RawStore) (city nid now nid2 now2 : ℕ),
      ¬ check_coverage_sem st.coverage bbox →
      run_ingestion st bbox (.error e) city nid now = (st, .error e) ∧
      (run_ingestion st bbox (.ok records) city nid2 now2).1.coverage
        = add_coverage_sem st.coverage bbox records.length ∧
      (run_ingestion st bbox (.ok records) city nid2 now2).1.coverage.length
        = st.coverage.length + 1 ∧
      (run_ingestion st bbox (.ok records) city nid2 now2).2
        = .ok records.length := by
  intro st bbox e records city nid now nid2 now2 hnc
  have h1 : run_ingestion st bbox (.error e) city nid now = (st, .error e) := by
    unfold run_ingestion
    rw [if_neg hnc]
  have h2 : run_ingestion st bbox (.ok records) city nid2 now2
      = (⟨persist_stores st.stores records city nid2 now2,
          add_coverage_sem st.coverage bbox records.length⟩,
        .ok records.length) := by
    unfold run_ingestion
    rw [if_neg hnc]
  refine ⟨h1, ?_, ?_, ?_⟩ <;> rw [h2] <;> simp [add_coverage_sem]

/-- Witness for C9: empty initial state, a timeout error, then a
successful retry with two records. -/
theorem C9_witness :
    ¬ check_coverage_sem (PipelineState.mk [] []).coverage ⟨0, 0, 1, 1⟩ ∧
    run_ingestion ⟨[], []⟩ ⟨0, 0, 1, 1⟩ (.error ⟨"timeout"⟩) 1 1 0
      = (⟨[], []⟩, .error ⟨"timeout"⟩) ∧
    (run_ingestion ⟨[], []⟩ ⟨0, 0, 1, 1⟩
        (.ok [⟨"A", "grocery", "POINT(0 0)"⟩,
              ⟨"B", "supermarket", "POINT(1 1)"⟩]) 1 1 0).1.coverage.length
      = (PipelineState.mk [] []).coverage.length + 1 := by
  have hnc : ¬ check_coverage_sem (PipelineState.mk [] []).coverage
      ⟨0, 0, 1, 1⟩ := by
    rintro ⟨c, hc, _⟩
    simp at hc
  obtain ⟨ha, _, hc, _⟩ := C9_fetch_failure_atomicity ⟨[], []⟩ ⟨0, 0, 1, 1⟩
    ⟨"timeout"⟩
    [⟨"A", "grocery", "POINT(0 0)"⟩, ⟨"B", "supermarket", "POINT(1 1)"⟩]
    1 1 0 1 0 hnc
  exact ⟨hnc, ha, hc⟩

/-- C10: the coverage check fails closed — an error raised while
evaluating the query makes `check_coverage` return `False` — while
coverage recording fails loud — an error raised inside `add_coverage`
is re-raised to the caller. -/
theorem C10_fail_closed_vs_fail_loud :
    (∀ (eq1 : Bbox → Except DbError (Option (List (List Bool))))
        (bbox : Bbox) (e : DbError),
      eq1 bbox = .error e → check_coverage_run eq1 bbox = false) ∧
    (∀ (eq2 : Bbox × ℕ → Except DbError Unit) (bbox : Bbox)
        (n : ℕ) (e : DbError),
      eq2 (bbox, n) = .error e →
      add_coverage_run eq2 bbox n = .error e) := by
  constructor
  · intro eq1 bbox e h
    unfold check_coverage_run
    rw [h]
  · intro eq2 bbox n e h
    unfold add_coverage_run
    rw [h]

/-- Witness for C10: concretely failing query evaluations. -/
theorem C10_witness :
    (fun _ : Bbox => (.error ⟨"connection refused"⟩ :
        Except DbError (Option (List (List Bool))))) ⟨0, 0, 1, 1⟩
      = .error ⟨"connection refused"⟩ ∧
    check_coverage_run (fun _ => .error ⟨"connection refused"⟩)
      ⟨0, 0, 1, 1⟩ = false ∧
    add_coverage_run (fun _ => .error ⟨"insert failed"⟩) ⟨0, 0, 1, 1⟩ 3
      = .error ⟨"insert failed"⟩ :=
  ⟨rfl,
   C10_fail_closed_vs_fail_loud.1 _ ⟨0, 0, 1, 1⟩ ⟨"connection refused"⟩ rfl,
   C10_fail_closed_vs_fail_loud.2 _ ⟨0, 0, 1, 1⟩ 3 ⟨"insert failed"⟩ rfl⟩

end FoodDesert
